import Mathlib

/-!
Verification of the fadecandy repository fragment: the demonstration script
`examples/python/measuring-stick.py` and the Open Pixel Control client it
depends on.  The script is embedded directly from the source; the OPC client
library (`opc`), which the script imports but which is absent from the
sources, is modelled from the specification's description of its wire format
and error policy.
-/

namespace Fadecandy

/-- A pixel is an RGB triple of 8-bit intensities, modelled as natural
numbers. -/
abbrev Pixel := Nat × Nat × Nat

/-- The script constant `numStrings = 6`. -/
def numStrings : Nat := 6

/-- The gray fill pixel `(128, 128, 128)` used by `measuring-stick.py`. -/
def grayPixel : Pixel := (128, 128, 128)

/-- The green marker pixel `(128, 255, 128)` used by `measuring-stick.py`. -/
def greenPixel : Pixel := (128, 255, 128)

/-- The list `string = [ (128, 128, 128) ] * 120` as it stands before the
override loop of `measuring-stick.py`. -/
def initialString : List Pixel := List.replicate 120 grayPixel

/-- The loop `for i in range(12): string[10 * i] = (128, 255, 128)` of
`measuring-stick.py`, applied to `initialString`: the writes happen in order
i = 0, 1, ..., 11. -/
def string : List Pixel :=
  (List.range 12).foldl (fun s i => s.set (10 * i) greenPixel) initialString

/-- The list `pixels = string * numStrings` of `measuring-stick.py`:
`numStrings` consecutive copies of `string`. -/
def pixels : List Pixel := (List.replicate numStrings string).flatten

/-- The log of pixel lists handed to `client.put_pixels`, in call order. -/
structure ClientLog where
  calls : List (List Pixel)
deriving DecidableEq

/-- One `client.put_pixels(ps)` call, which appends `ps` to the call log. -/
def put_pixels (st : ClientLog) (ps : List Pixel) : ClientLog :=
  ⟨st.calls ++ [ps]⟩

/-- Running `measuring-stick.py`: the script builds `pixels` and then calls
`client.put_pixels(pixels)` twice. -/
def runScript : ClientLog := put_pixels (put_pixels ⟨[]⟩ pixels) pixels

/-- Serialization of a pixel list at 3 bytes per pixel, red, green, blue, in
sequence order. -/
def serializePixels : List Pixel → List Nat
  | [] => []
  | (r, g, b) :: rest => r :: g :: b :: serializePixels rest

/-- A bounds-checked list write: succeeds exactly when the index is strictly
below the length of the list, and then performs the write. -/
def setChecked (s : List Pixel) (i : Nat) (v : Pixel) : Option (List Pixel) :=
  if i < s.length then some (s.set i v) else none

/-- The override loop of `measuring-stick.py` with every write
bounds-checked: `none` if any iteration indexes out of range. -/
def stringChecked : Option (List Pixel) :=
  (List.range 12).foldlM (fun s i => setChecked s (10 * i) greenPixel) initialString

/-- Modelled from the spec: the error kinds of the OPC client library `opc`,
which the script imports but which is absent from the sources. -/
inductive ClientError where
  | connectionError
  | notConnectedError
  | invalidChannelError
deriving DecidableEq

/-- Modelled from the spec: the outcome of one `send_frame` call — a frame
handed byte for byte to the transport, a surfaced error, or a failure
swallowed under the best-effort configuration. -/
inductive SendResult where
  | sent (frame : List Nat)
  | failed (e : ClientError)
  | droppedSilently
deriving DecidableEq

/-- Modelled from the spec: the state of the OPC client, absent from the
sources.  `connected` is false on a never-connected, closed or broken
Connection; `failSilently` is the best-effort configuration under which send
failures are swallowed; `stream` is the byte stream handed to the transport
so far. -/
structure Client where
  connected : Bool
  failSilently : Bool
  stream : List Nat
deriving DecidableEq

/-- Modelled from the spec: the wire format of one frame,
`[channel:1 byte][command:1 byte = 0x00][length:2 bytes big-endian][payload]`
where the payload is the RGB triples concatenated. -/
def serializeFrame (channel : Nat) (ps : List Pixel) : List Nat :=
  let payload := serializePixels ps
  let len := payload.length
  channel :: 0 :: (len / 256 % 256) :: (len % 256) :: payload

/-- Modelled from the spec: `send_frame(channel, pixels)` of the absent OPC
client.  A channel outside [0, 255] fails with `InvalidChannelError` and
transmits nothing; on an open Connection the serialized frame is handed to
the transport; otherwise the call fails with `NotConnectedError` unless the
client is configured to fail silently, in which case the failure is
swallowed.  The argument check precedes the connection check. -/
def send_frame (cl : Client) (channel : Int) (ps : List Pixel) :
    SendResult × Client :=
  if channel < 0 ∨ 255 < channel then (.failed .invalidChannelError, cl)
  else if cl.connected then
    let frame := serializeFrame channel.toNat ps
    (.sent frame, { cl with stream := cl.stream ++ frame })
  else if cl.failSilently then (.droppedSilently, cl)
  else (.failed .notConnectedError, cl)

/-- Modelled from the spec: receiver-side grouping of a flat byte list into
RGB triples; fails when the length is not a multiple of 3. -/
def groupTriples : List Nat → Option (List Pixel)
  | [] => some []
  | r :: g :: b :: rest => (groupTriples rest).map (fun ps => (r, g, b) :: ps)
  | _ => none

/-- Modelled from the spec: receiver-side decoding of one frame — read the
channel byte, check the command byte is 0x00, read the 16-bit big-endian
length, check it matches the remaining bytes, and group them into pixels. -/
def decodeFrame (bytes : List Nat) : Option (Nat × List Pixel) :=
  match bytes with
  | ch :: cmd :: hi :: lo :: rest =>
    if cmd = 0 ∧ rest.length = hi * 256 + lo then
      (groupTriples rest).map (fun ps => (ch, ps))
    else none
  | _ => none

/-- A connected, non-silent client with an empty output stream. -/
def testClient : Client := ⟨true, false, []⟩

/-- A never-connected, non-silent client with an empty output stream. -/
def neverConnectedClient : Client := ⟨false, false, []⟩

/-- Serializing `n` pixels yields exactly `3 * n` bytes. -/
theorem serializePixels_length (P : List Pixel) :
    (serializePixels P).length = 3 * P.length := by
  induction P with
  | nil => rfl
  | cons p rest ih =>
    obtain ⟨r, g, b⟩ := p
    simp [serializePixels, ih]
    ring

/-- Grouping the serialization of a pixel list back into triples recovers the
list. -/
theorem groupTriples_serializePixels (P : List Pixel) :
    groupTriples (serializePixels P) = some P := by
  induction P with
  | nil => rfl
  | cons p rest ih =>
    obtain ⟨r, g, b⟩ := p
    simp [serializePixels, groupTriples, ih]

set_option maxHeartbeats 4000000 in
set_option maxRecDepth 20000 in
set_option synthInstance.maxSize 2000 in
/-- Claim C1: the pixel pattern built by `measuring-stick.py` is a
120-element list whose pixel at index `10 * i`, for every `i < 12`, is
`(128, 255, 128)` and whose every other pixel is `(128, 128, 128)`;
serialized at 3 bytes per pixel it yields a 360-byte payload whose bytes at
offsets `3 * (10 * i)` through `3 * (10 * i) + 2` are `128, 255, 128` and
whose bytes at every offset outside those ranges are `128`. -/
theorem string_pattern :
    string.length = 120 ∧
    (∀ i, i < 12 → string.get? (10 * i) = some greenPixel) ∧
    (∀ j, j < 120 → (∀ i, i < 12 → j ≠ 10 * i) → string.get? j = some grayPixel) ∧
    (serializePixels string).length = 360 ∧
    (∀ i, i < 12 →
      (serializePixels string).get? (3 * (10 * i)) = some 128 ∧
      (serializePixels string).get? (3 * (10 * i) + 1) = some 255 ∧
      (serializePixels string).get? (3 * (10 * i) + 2) = some 128) ∧
    (∀ k, k < 360 → (∀ i, i < 12 → k < 3 * (10 * i) ∨ 3 * (10 * i) + 2 < k) →
      (serializePixels string).get? k = some 128) := by decide

/-- Claim C2: on a connected client and an in-range channel, `send_frame`
produces a frame whose payload (the bytes after the 4-byte header) is the
pixel serialization, of exactly `3 * len(P)` bytes; the empty pixel sequence
is accepted and yields a zero-length payload. -/
theorem send_frame_payload_length (cl : Client) (c : Int) (P : List Pixel)
    (hc : 0 ≤ c ∧ c ≤ 255) (hconn : cl.connected = true) :
    ∃ frame, (send_frame cl c P).1 = .sent frame ∧
      frame.drop 4 = serializePixels P ∧
      (frame.drop 4).length = 3 * P.length := by
  have hnot : ¬ (c < 0 ∨ 255 < c) := by omega
  refine ⟨serializeFrame c.toNat P, ?_, ?_, ?_⟩
  · simp [send_frame, hnot, hconn]
  · simp [serializeFrame]
  · simp [serializeFrame, serializePixels_length]

/-- Claim C2, witness: a connected client accepts the empty pixel sequence
on channel 0 and produces a zero-length payload. -/
theorem send_frame_payload_length_witness :
    ∃ frame, (send_frame testClient 0 []).1 = .sent frame ∧
      frame.drop 4 = serializePixels [] ∧
      (frame.drop 4).length = 3 * ([] : List Pixel).length :=
  send_frame_payload_length testClient 0 [] (by decide) rfl

/-- Claim C3: on a connected client and an in-range channel, the serialized
frame built by `send_frame` is exactly the channel byte, the command byte
0x00, a 16-bit big-endian length field whose value is `3 * len(P)`, and the
raw RGB bytes of the pixels in sequence order. -/
theorem send_frame_wire_format (cl : Client) (c : Int) (P : List Pixel)
    (hc : 0 ≤ c ∧ c ≤ 255) (hconn : cl.connected = true)
    (hlen : 3 * P.length ≤ 65535) :
    ∃ hi lo, (send_frame cl c P).1 =
      .sent (c.toNat :: 0 :: hi :: lo :: serializePixels P) ∧
      hi * 256 + lo = 3 * P.length := by
  have hnot : ¬ (c < 0 ∨ 255 < c) := by omega
  refine ⟨3 * P.length / 256, 3 * P.length % 256, ?_, by omega⟩
  have hmod : 3 * P.length / 256 % 256 = 3 * P.length / 256 :=
    Nat.mod_eq_of_lt (by omega)
  simp [send_frame, hnot, hconn, serializeFrame, serializePixels_length, hmod]

/-- Claim C3, witness: one green pixel on channel 3 serializes to the frame
`[3, 0, 0, 3, 1, 2, 3]`, whose length field carries the value 3. -/
theorem send_frame_wire_format_witness :
    ∃ hi lo, (send_frame testClient 3 [(1, 2, 3)]).1 =
      .sent ((3 : Int).toNat :: 0 :: hi :: lo :: serializePixels [(1, 2, 3)]) ∧
      hi * 256 + lo = 3 * ([(1, 2, 3)] : List Pixel).length :=
  send_frame_wire_format testClient 3 [(1, 2, 3)] (by decide) rfl (by decide)

/-- Claim C4: decoding the frame serialized by `send_frame` reproduces the
original channel and the original ordered pixel sequence exactly. -/
theorem send_frame_roundtrip (cl : Client) (c : Int) (P : List Pixel)
    (hc : 0 ≤ c ∧ c ≤ 255) (hconn : cl.connected = true)
    (hlen : 3 * P.length ≤ 65535) :
    ∃ frame, (send_frame cl c P).1 = .sent frame ∧
      decodeFrame frame = some (c.toNat, P) := by
  have hnot : ¬ (c < 0 ∨ 255 < c) := by omega
  refine ⟨serializeFrame c.toNat P, by simp [send_frame, hnot, hconn], ?_⟩
  have hsp : (serializePixels P).length = 3 * P.length := serializePixels_length P
  simp only [serializeFrame, decodeFrame]
  rw [if_pos ⟨trivial, by omega⟩, groupTriples_serializePixels]
  rfl

/-- Claim C4, witness: the frame for two pixels on channel 1 decodes back to
those two pixels on channel 1. -/
theorem send_frame_roundtrip_witness :
    ∃ frame, (send_frame testClient 1 [(9, 8, 7), (0, 255, 0)]).1 = .sent frame ∧
      decodeFrame frame = some ((1 : Int).toNat, [(9, 8, 7), (0, 255, 0)]) :=
  send_frame_roundtrip testClient 1 [(9, 8, 7), (0, 255, 0)] (by decide) rfl (by decide)

/-- Claim C5: for every channel outside [0, 255] and every pixel sequence,
`send_frame` fails with `InvalidChannelError` and leaves the client,
including its output stream, unchanged. -/
theorem send_frame_invalid_channel (cl : Client) (c : Int) (P : List Pixel)
    (hc : c < 0 ∨ 255 < c) :
    send_frame cl c P = (.failed .invalidChannelError, cl) := by
  simp [send_frame, hc]

/-- Claim C5, witness: channel 256 is rejected with `InvalidChannelError`
and the client is unchanged. -/
theorem send_frame_invalid_channel_witness :
    send_frame testClient 256 [(1, 2, 3)] = (.failed .invalidChannelError, testClient) :=
  send_frame_invalid_channel testClient 256 [(1, 2, 3)] (by decide)

/-- Claim C6, counterexample: on a never-connected, non-silent client,
`send_frame` with the out-of-range channel 256 fails with
`InvalidChannelError`, not `NotConnectedError`, refuting the claim for
every channel. -/
theorem send_frame_not_connected_counterexample :
    neverConnectedClient.connected = false ∧
    neverConnectedClient.failSilently = false ∧
    (send_frame neverConnectedClient 256 []).1 = .failed .invalidChannelError ∧
    (send_frame neverConnectedClient 256 []).1 ≠ .failed .notConnectedError := by
  decide

/-- Claim C6 as amended: for an in-range channel, `send_frame` on a client
whose Connection is absent, closed or broken fails with `NotConnectedError`
— unless the client is configured to fail silently, in which case the
failure is swallowed — and in either case the client is unchanged and
nothing is transmitted. -/
theorem send_frame_not_connected (cl : Client) (c : Int) (P : List Pixel)
    (hc : 0 ≤ c ∧ c ≤ 255) (hconn : cl.connected = false) :
    send_frame cl c P =
      (if cl.failSilently then .droppedSilently else .failed .notConnectedError, cl) := by
  have hnot : ¬ (c < 0 ∨ 255 < c) := by omega
  by_cases hs : cl.failSilently <;> simp [send_frame, hnot, hconn, hs]

/-- Claim C6, witness: on the never-connected, non-silent client, sending
the empty sequence on channel 0 fails with `NotConnectedError`. -/
theorem send_frame_not_connected_witness :
    send_frame neverConnectedClient 0 [] =
      (if neverConnectedClient.failSilently then .droppedSilently
       else .failed .notConnectedError, neverConnectedClient) :=
  send_frame_not_connected neverConnectedClient 0 [] (by decide) rfl

/-- Claim C7: the script computes one fixed pixel list and invokes
`put_pixels` exactly twice, both times with that same list. -/
theorem runScript_two_calls :
    runScript.calls = [pixels, pixels] ∧ runScript.calls.length = 2 := by
  constructor <;> rfl

set_option maxHeartbeats 4000000 in
set_option maxRecDepth 20000 in
set_option synthInstance.maxSize 2000 in
/-- Claim C8: the list handed to `put_pixels` has length 720 and consists of
6 identical consecutive copies of the 120-pixel pattern: for every `k < 6`
and `j < 120`, the pixel at index `120 * k + j` equals the pattern pixel at
index `j`. -/
theorem pixels_six_copies :
    pixels.length = 720 ∧
    (∀ k, k < 6 → ∀ j, j < 120 → pixels.get? (120 * k + j) = string.get? j) := by
  decide

set_option maxRecDepth 10000 in
/-- Claim C9: every write of the override loop is in bounds — for every
`i < 12` the index `10 * i` is at most 110, strictly below the 120-element
length of the list being written — so the bounds-checked loop succeeds and
produces exactly the pattern the script builds. -/
theorem override_writes_in_bounds :
    (∀ i, i < 12 → 10 * i ≤ 110 ∧ 10 * i < initialString.length) ∧
    stringChecked = some string := by decide

set_option maxHeartbeats 4000000 in
set_option maxRecDepth 20000 in
set_option synthInstance.maxSize 2000 in
/-- Claim C10: every pixel of the final list handed to `put_pixels` is
either `(128, 128, 128)` or `(128, 255, 128)`, and every color component of
every pixel lies in 0..255. -/
theorem pixels_two_values :
    (∀ p ∈ pixels, p = grayPixel ∨ p = greenPixel) ∧
    (∀ p ∈ pixels, p.1 ≤ 255 ∧ p.2.1 ≤ 255 ∧ p.2.2 ≤ 255) := by decide

end Fadecandy
